import Mathlib

/-!
Verification of the proxy server in `server.py` (AI-3D-Scene-generator).

The development shallowly embeds the server's pure decision logic:

* the Python string operations the server relies on (`str.strip`,
  `str.split('=', 1)`, `int(...)`, `str.startswith`, `str.endswith`);
* a JSON value model together with a serializer faithful to
  `json.dumps` with its default separators, and a parser modelling
  `json.loads` (integers only: the server never manipulates
  floating-point JSON numbers, and floats are outside the model);
* the filesystem as a map from normalized relative paths to optional
  file contents (directories are not modelled);
* the three handlers `do_GET`, `do_POST`, `do_OPTIONS` and the
  credential loader `_load_api_key`, with the upstream HTTP call and
  the client connection modelled as explicit oracles.  Each handler
  returns the list of response-write attempts it performs together
  with the list of upstream calls it issues; a client disconnect on
  the i-th write attempt is modelled by the oracle `wf i = true`.

Byte strings are modelled as Lean `String`s (the server only ever
handles them after UTF-8 decoding, and every claim is about character
data); `Content-Length` counts characters.  Exception message texts
produced by the CPython runtime (ValueError, KeyError, TypeError,
ConnectionResetError) are modelled by fixed strings following the
CPython wording; no claim depends on their exact contents.
-/

/-! ## Python string primitives -/

/-- Characters treated as whitespace by `str.strip()` (ASCII fragment). -/
def pyIsSpace (c : Char) : Bool :=
  c = ' ' || c = Char.ofNat 9 || c = Char.ofNat 10 || c = Char.ofNat 13 ||
  c = Char.ofNat 11 || c = Char.ofNat 12

/-- Remove leading and trailing characters satisfying `p` (Python `str.strip`). -/
def stripWhile (p : Char → Bool) (s : String) : String :=
  String.mk (((s.data.dropWhile p).reverse.dropWhile p).reverse)

/-- Python `str.strip()` (no argument: whitespace). -/
def pyStrip (s : String) : String := stripWhile pyIsSpace s

/-- Python `str.strip(c)` for a single character `c`. -/
def pyStripChar (c : Char) (s : String) : String := stripWhile (fun x => x = c) s

/-- Python `str.startswith` on character lists. -/
def listStartsWith : List Char → List Char → Bool
  | [], _ => true
  | _ :: _, [] => false
  | p :: ps, c :: cs => p = c && listStartsWith ps cs

/-- Python `str.startswith`. -/
def strStartsWith (s pre : String) : Bool := listStartsWith pre.data s.data

/-- Python `str.endswith`. -/
def strEndsWith (s suf : String) : Bool :=
  listStartsWith suf.data.reverse s.data.reverse

/-- Split a character list at the first occurrence of `c`
(Python `str.split(c, 1)` when `c` occurs). -/
def splitFirstAux (c : Char) : List Char → Option (List Char × List Char)
  | [] => none
  | x :: xs =>
    if x = c then some ([], xs)
    else
      match splitFirstAux c xs with
      | some (a, b) => some (x :: a, b)
      | none => none

/-- Python `line.split('=', 1)` restricted to lines containing `'='`:
`some (key, value)` when the separator occurs, `none` otherwise. -/
def splitFirst (c : Char) (s : String) : Option (String × String) :=
  match splitFirstAux c s.data with
  | some (a, b) => some (String.mk a, String.mk b)
  | none => none

/-- Split a string on every occurrence of a separator character
(Python `str.split(c)` for a one-character separator). -/
def splitOnChar (c : Char) : List Char → List (List Char)
  | [] => [[]]
  | x :: xs =>
    if x = c then [] :: splitOnChar c xs
    else
      match splitOnChar c xs with
      | [] => [[x]]
      | g :: gs => (x :: g) :: gs

/-- String-level split on a single separator character. -/
def strSplitOn (c : Char) (s : String) : List String :=
  (splitOnChar c s.data).map String.mk

/-- Value of a digit group as accepted by Python `int(str)`:
digits with single underscores strictly between digits. -/
def pyIntDigits (cs : List Char) : Option Nat :=
  match cs.foldl
      (fun st ch =>
        match st with
        | none => none
        | some (acc, lastDigit) =>
          if ch.isDigit then some (acc * 10 + (ch.toNat - 48), true)
          else if ch = Char.ofNat 95 then
            if lastDigit then some (acc, false) else none
          else none)
      (some (0, false)) with
  | some (acc, true) => some acc
  | _ => none

/-- Python `int(str)` (base 10): optional surrounding whitespace, optional
sign, then a non-empty digit group; `none` models `ValueError`. -/
def pyInt (s : String) : Option Int :=
  match (pyStrip s).data with
  | '+' :: rest => (pyIntDigits rest).map fun n => (n : Int)
  | '-' :: rest => (pyIntDigits rest).map fun n => -(n : Int)
  | cs => (pyIntDigits cs).map fun n => (n : Int)

/-- Simplified `repr` of a Python string (enough for the exception
messages the server can produce on header values without quotes). -/
def pyRepr (s : String) : String := "'" ++ s ++ "'"

/-! ## JSON values

A first-order inductive: arrays and objects are cons-chains inside the
same type, so that every function below is plain structural recursion
and reduces inside the kernel.  `json.loads` only ever produces
well-formed chains (`arrCons` tails end in `arrNil`, `objCons` tails in
`objNil`). -/

inductive Json where
  | null : Json
  | bool (b : Bool) : Json
  | num (n : Int) : Json
  | str (s : String) : Json
  | arrNil : Json
  | arrCons (hd tl : Json) : Json
  | objNil : Json
  | objCons (k : String) (v tl : Json) : Json
deriving DecidableEq

/-- Hex digit character for `n < 16` (lowercase, as `json.dumps` emits). -/
def hexDigitChar (n : Nat) : Char :=
  Char.ofNat (if n < 10 then 48 + n else 87 + n)

/-- `json.dumps` escaping of one character (ASCII fragment of the
default `ensure_ascii` behaviour; the server's strings are ASCII). -/
def escChar (c : Char) : String :=
  if c = '"' then "\\\""
  else if c = '\\' then "\\\\"
  else if c = Char.ofNat 10 then "\\n"
  else if c = Char.ofNat 9 then "\\t"
  else if c = Char.ofNat 13 then "\\r"
  else if c = Char.ofNat 8 then "\\b"
  else if c = Char.ofNat 12 then "\\f"
  else if c.toNat < 32 then
    "\\u00" ++ String.mk [hexDigitChar (c.toNat / 16), hexDigitChar (c.toNat % 16)]
  else String.mk [c]

/-- `json.dumps` string-body escaping. -/
def escString (s : String) : String := String.join (s.data.map escChar)

/-- `json.dumps` with CPython's default separators `", "` and `": "`.
The Bool is the rendering mode: `true` renders a value, `false` renders
the tail of an array/object chain (comma-prefixed items). -/
def dumpAux : Bool → Json → String
  | true, .null => "null"
  | true, .bool b => if b then "true" else "false"
  | true, .num n => toString n
  | true, .str s => "\"" ++ escString s ++ "\""
  | true, .arrNil => "[]"
  | true, .arrCons hd tl => "[" ++ dumpAux true hd ++ dumpAux false tl ++ "]"
  | true, .objNil => "\x7b\x7d"
  | true, .objCons k v tl =>
      "\x7b\"" ++ escString k ++ "\": " ++ dumpAux true v ++ dumpAux false tl ++ "\x7d"
  | false, .arrCons hd tl => ", " ++ dumpAux true hd ++ dumpAux false tl
  | false, .objCons k v tl =>
      ", \"" ++ escString k ++ "\": " ++ dumpAux true v ++ dumpAux false tl
  | false, _ => ""

/-- `json.dumps` (default keyword arguments). -/
def dumps (j : Json) : String := dumpAux true j

/-- Python dict lookup `d[key]` on an object chain; `none` models
`KeyError` (and any lookup on a non-object). -/
def getField : Json → String → Option Json
  | .objCons k v tl, key => if k = key then some v else getField tl key
  | _, _ => none

/-- Python dict insertion `d[key] = v` while an object literal is being
built by `json.loads`: a repeated key keeps its first position and
takes the latest value. -/
def objInsert : Json → String → Json → Json
  | .objCons k v tl, key, val =>
    if k = key then .objCons k val tl else .objCons k v (objInsert tl key val)
  | _, key, val => .objCons key val .objNil

/-- Is the value a Python dict (an object chain)? -/
def isObjLike : Json → Bool
  | .objNil => true
  | .objCons _ _ _ => true
  | _ => false

/-! ## JSON parsing (`json.loads`) -/

/-- JSON insignificant whitespace. -/
def jsonWs (c : Char) : Bool :=
  c = ' ' || c = Char.ofNat 9 || c = Char.ofNat 10 || c = Char.ofNat 13

/-- Skip insignificant whitespace. -/
def skipWs : List Char → List Char
  | [] => []
  | c :: cs => if jsonWs c then skipWs cs else c :: cs

/-- Hex digit value. -/
def hexVal (c : Char) : Option Nat :=
  if '0' ≤ c ∧ c ≤ '9' then some (c.toNat - 48)
  else if 'a' ≤ c ∧ c ≤ 'f' then some (c.toNat - 87)
  else if 'A' ≤ c ∧ c ≤ 'F' then some (c.toNat - 70)
  else none

/-- Single-character JSON string escapes. -/
def escMap (c : Char) : Option Char :=
  if c = '"' then some '"'
  else if c = '\\' then some '\\'
  else if c = '/' then some '/'
  else if c = 'n' then some (Char.ofNat 10)
  else if c = 't' then some (Char.ofNat 9)
  else if c = 'r' then some (Char.ofNat 13)
  else if c = 'b' then some (Char.ofNat 8)
  else if c = 'f' then some (Char.ofNat 12)
  else none

/-- Parse the body of a JSON string after the opening quote; returns the
decoded string and the input after the closing quote.  Fuel makes the
recursion structural; callers supply fuel larger than the input. -/
def parseStrAux : Nat → List Char → Option (String × List Char)
  | 0, _ => none
  | Nat.succ fuel, cs =>
    match cs with
    | [] => none
    | c :: rest =>
      if c = '"' then some ("", rest)
      else if c = '\\' then
        match rest with
        | [] => none
        | e :: rest2 =>
          if e = 'u' then
            match rest2 with
            | a :: b :: c2 :: d :: rest3 =>
              match hexVal a, hexVal b, hexVal c2, hexVal d with
              | some ha, some hb, some hc, some hd =>
                match parseStrAux fuel rest3 with
                | some (s, r) =>
                  some (String.mk [Char.ofNat (((ha * 16 + hb) * 16 + hc) * 16 + hd)] ++ s, r)
                | none => none
              | _, _, _, _ => none
            | _ => none
          else
            match escMap e with
            | some ec =>
              match parseStrAux fuel rest2 with
              | some (s, r) => some (String.mk [ec] ++ s, r)
              | none => none
            | none => none
      else
        match parseStrAux fuel rest with
        | some (s, r) => some (String.mk [c] ++ s, r)
        | none => none

/-- Parse a JSON integer literal (an optional minus sign and digits with
no redundant leading zero).  A fraction or exponent would be a float,
which is outside the model, so it is rejected rather than misread. -/
def parseNum (cs : List Char) : Option (Int × List Char) :=
  let core : List Char → Option (Nat × List Char) := fun l =>
    let digits := l.takeWhile Char.isDigit
    let rest := l.dropWhile Char.isDigit
    match digits with
    | [] => none
    | d :: ds =>
      if d = '0' ∧ ds ≠ [] then none
      else
        match rest with
        | r :: _ => if r = '.' ∨ r = 'e' ∨ r = 'E' then none
                    else (pyIntDigits digits).map fun n => (n, rest)
        | [] => (pyIntDigits digits).map fun n => (n, rest)
  match cs with
  | '-' :: l => (core l).map fun (n, r) => (-(n : Int), r)
  | l => (core l).map fun (n, r) => ((n : Int), r)

/-- Parser mode: a JSON value, the items of an array, or the remaining
items of an object (with the pairs accumulated so far). -/
inductive PMode where
  | val : PMode
  | arrItems : PMode
  | objItems (acc : Json) : PMode

/-- Recursive-descent JSON parser, structurally recursive on fuel.
Returns the parsed value and the unconsumed input. -/
def parseF : Nat → PMode → List Char → Option (Json × List Char)
  | 0, _, _ => none
  | Nat.succ fuel, .val, cs =>
    match skipWs cs with
    | 'n' :: 'u' :: 'l' :: 'l' :: rest => some (.null, rest)
    | 't' :: 'r' :: 'u' :: 'e' :: rest => some (.bool true, rest)
    | 'f' :: 'a' :: 'l' :: 's' :: 'e' :: rest => some (.bool false, rest)
    | '"' :: rest =>
      match parseStrAux (rest.length + 1) rest with
      | some (s, r) => some (.str s, r)
      | none => none
    | '[' :: rest =>
      match skipWs rest with
      | ']' :: r => some (.arrNil, r)
      | cs2 => parseF fuel .arrItems cs2
    | '\x7b' :: rest =>
      match skipWs rest with
      | '\x7d' :: r => some (.objNil, r)
      | cs2 => parseF fuel (.objItems .objNil) cs2
    | cs2 => (parseNum cs2).map fun (n, r) => (.num n, r)
  | Nat.succ fuel, .arrItems, cs =>
    match parseF fuel .val cs with
    | none => none
    | some (v, r) =>
      match skipWs r with
      | ',' :: r2 =>
        match parseF fuel .arrItems r2 with
        | some (tl, r3) => some (.arrCons v tl, r3)
        | _ => none
      | ']' :: r2 => some (.arrCons v .arrNil, r2)
      | _ => none
  | Nat.succ fuel, .objItems acc, cs =>
    match skipWs cs with
    | '"' :: rest =>
      match parseStrAux (rest.length + 1) rest with
      | some (k, r) =>
        match skipWs r with
        | ':' :: r2 =>
          match parseF fuel .val r2 with
          | some (v, r3) =>
            match skipWs r3 with
            | ',' :: r4 => parseF fuel (.objItems (objInsert acc k v)) r4
            | '\x7d' :: r4 => some (objInsert acc k v, r4)
            | _ => none
          | none => none
        | _ => none
      | none => none
    | _ => none

/-- `json.loads`: parse one JSON document and require only whitespace
after it; `none` models `json.JSONDecodeError`. -/
def loads (s : String) : Option Json :=
  match parseF (3 * s.data.length + 8) .val s.data with
  | some (j, rest) => if skipWs rest = [] then some j else none
  | none => none

/-! ## Filesystem and configuration store -/

/-- The filesystem: normalized relative path to optional file content.
`none` models `FileNotFoundError`; directories are not modelled. -/
def FS : Type := String → Option String

/-- Normalize a relative path as POSIX `open` resolves it: drop empty
and `"."` segments (so `"./.env"` and `".env"` name the same file). -/
def resolvePath (p : String) : String :=
  String.intercalate "/" ((strSplitOn '/' p).filter fun seg => seg != "" && seg != ".")

/-- Python `open(p)` against the modelled filesystem. -/
def readFile (fs : FS) (p : String) : Option String := fs (resolvePath p)

/-- Line iteration of a text-mode file: universal-newline translation
(`"\r\n"` and `"\r"` become `"\n"`), then one item per line. -/
def normalizeNewlines : List Char → List Char
  | [] => []
  | c :: cs =>
    if c = Char.ofNat 13 then
      match cs with
      | c2 :: cs2 =>
        if c2 = Char.ofNat 10 then Char.ofNat 10 :: normalizeNewlines cs2
        else Char.ofNat 10 :: normalizeNewlines (c2 :: cs2)
      | [] => [Char.ofNat 10]
    else c :: normalizeNewlines cs

/-- The lines of a file's content as `for line in f` yields them
(modulo the trailing `"\n"`, which `line.strip()` removes anyway). -/
def envLines (content : String) : List String :=
  (splitOnChar (Char.ofNat 10) (normalizeNewlines content.data)).map String.mk

/-- `value.strip().strip('"').strip("'")` from `_load_api_key`. -/
def stripValue (v : String) : String :=
  pyStripChar (Char.ofNat 39) (pyStripChar '"' (pyStrip v))

/-- The loop body of `_load_api_key` over the remaining lines
(server.py lines 186-192). -/
def scanEnvLines : List String → Option String
  | [] => none
  | l :: ls =>
    let line := pyStrip l
    if line != "" && !strStartsWith line "#" then
      match splitFirst '=' line with
      | some (k, v) =>
        if pyStrip k = "OPENAI_API_KEY" then some (stripValue v)
        else scanEnvLines ls
      | none => scanEnvLines ls
    else scanEnvLines ls

/-- `ProxyHandler._load_api_key` (server.py lines 182-195): read `.env`,
scan its lines, return the first matching value; `none` both when the
file is missing (after a non-fatal warning, not modelled) and when no
line matches. -/
def _load_api_key (fs : FS) : Option String :=
  match readFile fs ".env" with
  | none => none
  | some content => scanEnvLines (envLines content)

/-! ## Responses, upstream calls, request model -/

/-- A response-write attempt: status, the explicitly sent headers (in
`send_header` order; the standard `Server`/`Date` headers added by the
harness are outside the model), and the body handed to `wfile.write`. -/
structure Response where
  status : Nat
  headers : List (String × String)
  body : String
deriving DecidableEq

/-- The upstream request built at server.py lines 94-102. -/
structure UpstreamCall where
  url : String
  authorization : String
  contentType : String
  body : String
deriving DecidableEq

/-- Outcome of `urlopen` on the upstream call: a 2xx response whose body
was read; a `URLError`/`HTTPError` with an optional status code and an
optional readable error body (present exactly when `e` has a `read`
attribute) and the `str(e)` description; or any other exception
(e.g. a bare timeout), carrying its `str(e)`. -/
inductive UpstreamResult where
  | success (body : String) : UpstreamResult
  | urlError (code : Option Nat) (errBody : Option String) (msg : String) : UpstreamResult
  | exn (msg : String) : UpstreamResult

/-- What one `do_POST` invocation does that the outside world can see:
its response-write attempts, in order, and the upstream calls it made. -/
structure PostOutcome where
  attempts : List Response
  calls : List UpstreamCall
deriving DecidableEq

/-- The inbound POST request: path, optional `Content-Length` header
value, and the readable byte stream of the connection (so a stream
shorter than the announced length models a truncated body). -/
structure PostRequest where
  path : String
  contentLength : Option String
  stream : String

/-- `("Content-type", "application/json")` as the server sends it.
HTTP header field names are case-insensitive; the model keeps the
source's literal spelling. -/
def ctJson : String × String := ("Content-type", "application/json")

/-- The CORS header sent on proxy success and upstream-error responses. -/
def acao : String × String := ("Access-Control-Allow-Origin", "*")

/-- Modelled `str(e)` of the `ConnectionResetError` raised when the
peer disconnects during a response write. -/
def connectionResetMsg : String := "[Errno 104] Connection reset by peer"

/-- Modelled `str(KeyError('data'))`. -/
def keyErrorDataMsg : String := "'data'"

/-- Modelled `str(e)` for subscripting a non-dict with a string key
(CPython wording per runtime type). -/
def typeErrorMsg : Json → String
  | .arrNil => "list indices must be integers or slices, not str"
  | .arrCons _ _ => "list indices must be integers or slices, not str"
  | .str _ => "string indices must be integers"
  | .num _ => "'int' object is not subscriptable"
  | .bool _ => "'bool' object is not subscriptable"
  | .null => "'NoneType' object is not subscriptable"
  | _ => ""

/-- The generic `except Exception` response (server.py lines 159-166). -/
def genericServerError (msg : String) : Response :=
  ⟨500, [ctJson], dumps (.objCons "error" (.str msg) .objNil)⟩

/-- The `json.JSONDecodeError` response (server.py lines 150-157). -/
def invalidJsonResponse : Response :=
  ⟨400, [ctJson], dumps (.objCons "error" (.str "Invalid JSON in request") .objNil)⟩

/-- The missing-credential response (server.py lines 84-88). -/
def apiKeyMissingResponse : Response :=
  ⟨500, [ctJson], dumps (.objCons "error" (.str "API key not found in .env file") .objNil)⟩

/-- The success relay (server.py lines 110-114): status 200, the two
headers, and the re-serialized upstream JSON. -/
def upstreamSuccessResponse (rj : Json) : Response :=
  ⟨200, [ctJson, acao], dumps rj⟩

/-- The `details` member of the `URLError` response body: present only
for a non-empty readable error body (`if error_body:` is a falsiness
test), as parsed JSON when it decodes, else as the raw text
(server.py lines 138-142). -/
def detailsTailFor (errBody : Option String) : Json :=
  match errBody with
  | some b =>
    if b = "" then .objNil
    else .objCons "details" ((loads b).getD (.str b)) .objNil
  | none => .objNil

/-- The `URLError` response (server.py lines 116-148): status is the
upstream's code when present and >= 400, else 500; the body holds
`error`, `type`, and the `details` member described above. -/
def urlErrorResponse (code : Option Nat) (errBody : Option String) (msg : String) : Response :=
  let error_code := code.getD 500
  ⟨if 400 ≤ error_code then error_code else 500,
   [ctJson, acao],
   dumps (.objCons "error" (.str msg) (.objCons "type" (.str "openai_api_error")
     (detailsTailFor errBody)))⟩

/-! ## The POST handler -/

/-- `int(self.headers.get('Content-Length', 0))` (server.py line 77);
`Except.error` carries the `ValueError` message. -/
def contentLengthVal (req : PostRequest) : Except String Int :=
  match req.contentLength with
  | none => .ok 0
  | some s =>
    match pyInt s with
    | some n => .ok n
    | none => .error ("invalid literal for int() with base 10: " ++ pyRepr s)

/-- `self.rfile.read(n)`: at most `n` characters from the connection
(fewer when the stream is shorter); a negative `n` reads to EOF. -/
def pyRead (stream : String) (n : Int) : String :=
  if n < 0 then stream else String.mk (stream.data.take n.toNat)

/-- Lines 77-78: resolve the announced length and read the body. -/
def inboundBody (req : PostRequest) : Except String String :=
  match contentLengthVal req with
  | .error m => .error m
  | .ok n => .ok (pyRead req.stream n)

/-- The fixed upstream endpoint (server.py line 92). -/
def openai_url : String := "https://api.openai.com/v1/chat/completions"

/-- Extra write attempt occurring when the first response write hits a
client disconnect at an UNguarded site: the exception reaches
`except Exception` (line 159), which attempts a generic 500. -/
def extraOnDisconnect (wf : Nat → Bool) : List Response :=
  if wf 0 then [genericServerError connectionResetMsg] else []

/-- Lines 104-148: make the upstream call and translate its outcome.
The success and URLError writes are not guarded against connection
errors, so a disconnect there adds the generic-500 attempt; the inner
read-failure (non-JSON 2xx body) propagates to the line-150 handler. -/
def performUpstream (up : UpstreamCall → UpstreamResult) (wf : Nat → Bool)
    (call : UpstreamCall) : PostOutcome :=
  match up call with
  | .success s =>
    match loads s with
    | some rj => ⟨upstreamSuccessResponse rj :: extraOnDisconnect wf, [call]⟩
    | none => ⟨[invalidJsonResponse], [call]⟩
  | .urlError c b m => ⟨urlErrorResponse c b m :: extraOnDisconnect wf, [call]⟩
  | .exn m => ⟨[genericServerError m], [call]⟩

/-- Lines 90-148: extract `request_data['data']` and call upstream; a
missing key or a non-dict payload raises into the generic handler. -/
def handleWithKey (up : UpstreamCall → UpstreamResult) (wf : Nat → Bool)
    (api_key : String) (j : Json) : PostOutcome :=
  if isObjLike j then
    match getField j "data" with
    | some d =>
      performUpstream up wf ⟨openai_url, "Bearer " ++ api_key, "application/json", dumps d⟩
    | none => ⟨[genericServerError keyErrorDataMsg], []⟩
  else ⟨[genericServerError (typeErrorMsg j)], []⟩

/-- Lines 81-148: load the key; `if not api_key:` is a falsiness test,
so both a missing key (`None`) and an empty value take the 500 branch.
The line-87 write is unguarded, so a disconnect there adds the
generic-500 attempt. -/
def handleParsed (fs : FS) (up : UpstreamCall → UpstreamResult) (wf : Nat → Bool)
    (j : Json) : PostOutcome :=
  if (_load_api_key fs).getD "" = "" then
    ⟨apiKeyMissingResponse :: extraOnDisconnect wf, []⟩
  else handleWithKey up wf ((_load_api_key fs).getD "") j

/-- `ProxyHandler.do_POST` (server.py lines 72-172), as a function of
the filesystem, the upstream behaviour, the connection-write oracle
(`wf i = true` means the i-th response-write attempt hits a client
disconnect) and the request. -/
def do_POST (fs : FS) (up : UpstreamCall → UpstreamResult) (wf : Nat → Bool)
    (req : PostRequest) : PostOutcome :=
  if req.path = "/api/generate-scene" then
    match inboundBody req with
    | .error m => ⟨[genericServerError m], []⟩
    | .ok b =>
      match loads b with
      | none => ⟨[invalidJsonResponse], []⟩
      | some j => handleParsed fs up wf j
  else ⟨[⟨404, [], ""⟩], []⟩

/-! ## The GET and OPTIONS handlers -/

/-- Path rewriting at the top of `do_GET` (lines 18-23): `/` becomes
`/index.html`, then any query string is stripped. -/
def processedPath (p : String) : String :=
  let p1 := if p = "/" then "/index.html" else p
  match strSplitOn '?' p1 with
  | q :: _ => q
  | [] => p1

/-- The extension table of `do_GET` (lines 27-38); `none` triggers the
immediate 404 of lines 40-42. -/
def contentTypeFor (p : String) : Option String :=
  if strEndsWith p ".html" then some "text/html"
  else if strEndsWith p ".js" then some "application/javascript"
  else if strEndsWith p ".json" then some "application/json"
  else if strEndsWith p ".env" then some "text/plain"
  else if strEndsWith p ".css" then some "text/css"
  else none

/-- `ProxyHandler.do_GET` (server.py lines 16-70).  All of its response
writes swallow client disconnects (the attempt list is unchanged by a
disconnect), so no write oracle is threaded. -/
def do_GET (fs : FS) (path : String) : List Response :=
  let p := processedPath path
  match contentTypeFor p with
  | none => [⟨404, [], ""⟩]
  | some ct =>
    match readFile fs ("." ++ p) with
    | some content =>
      [⟨200, [("Content-type", ct), ("Content-Length", toString content.length)], content⟩]
    | none =>
      [⟨404, [ctJson], dumps (.objCons "error" (.str "File not found") .objNil)⟩]

/-- `ProxyHandler.do_OPTIONS` (server.py lines 174-180): path- and
payload-independent. -/
def do_OPTIONS (_path : String) : Response :=
  ⟨200,
   [("Access-Control-Allow-Origin", "*"),
    ("Access-Control-Allow-Methods", "GET, POST, OPTIONS"),
    ("Access-Control-Allow-Headers", "Content-Type, Authorization")],
   ""⟩

/-! ## Reference definition for the credential loader

`load_credential_spec` restates the loader as §4.1 of the spec and
claim C6 describe it, to be compared with `_load_api_key`. -/

/-- Modelled from the spec: the contribution of one line per C6's
wording — a line is ignored when empty after trimming or starting with
`#` or lacking `=`; otherwise it is split on the first `=`, and it
yields its stripped value exactly when its trimmed key is the fixed
credential name. -/
def credLineValue (l : String) : Option String :=
  let line := pyStrip l
  if line != "" && !strStartsWith line "#" then
    match splitFirst '=' line with
    | some (k, v) =>
      if pyStrip k = "OPENAI_API_KEY" then some (stripValue v) else none
    | none => none
  else none

/-- Modelled from the spec: return the value of the first significant
line whose key matches; `none` when no line matches or the store is
absent. -/
def load_credential_spec (fs : FS) : Option String :=
  (readFile fs ".env").bind fun content =>
    ((envLines content).filterMap credLineValue).head?

/-! ## Concrete fixtures for witnesses and counterexamples -/

/-- A connection that never drops: every response write succeeds. -/
def noDisconnect : Nat → Bool := fun _ => false

/-- A connection dropped before the first response write completes. -/
def disconnectFirstWrite : Nat → Bool := fun i => i == 0

/-- Filesystem holding only a `.env` store with credential `secret-one`. -/
def envFsOne : FS := fun q => if q = ".env" then some "OPENAI_API_KEY=secret-one" else none

/-- Same filesystem as `envFsOne` except for the stored credential value. -/
def envFsTwo : FS := fun q => if q = ".env" then some "OPENAI_API_KEY=secret-two" else none

/-- Filesystem whose `.env` store holds credential `sk-test`. -/
def envFsMain : FS := fun q => if q = ".env" then some "OPENAI_API_KEY=sk-test" else none

/-- Filesystem whose `.env` store holds credential `sk-other`. -/
def envFsAlt : FS := fun q => if q = ".env" then some "OPENAI_API_KEY=sk-other" else none

/-- Filesystem whose `.env` store sets the credential to an empty
quoted value. -/
def envFsEmptyVal : FS := fun q => if q = ".env" then some "OPENAI_API_KEY=\"\"" else none

/-- Filesystem with no `.env` store at all. -/
def fsNoEnv : FS := fun _ => none

/-- Upstream that answers 2xx with the JSON body `⦃"id": "abc"⦄`. -/
def upSuccess : UpstreamCall → UpstreamResult := fun _ => .success "\x7b\"id\": \"abc\"\x7d"

/-- Upstream whose call would only raise a non-URLError exception;
used where the claim asserts no upstream call happens. -/
def upNever : UpstreamCall → UpstreamResult := fun _ => .exn "unreachable"

/-- Upstream failing with HTTP 404 whose error body reads as the empty
string (readable, but empty). -/
def up404Empty : UpstreamCall → UpstreamResult :=
  fun _ => .urlError (some 404) (some "") "HTTP Error 404: Not Found"

/-- Upstream failing with HTTP 429 and a JSON error body. -/
def up429 : UpstreamCall → UpstreamResult :=
  fun _ => .urlError (some 429) (some "\x7b\"message\": \"rate limit\"\x7d")
    "HTTP Error 429: Too Many Requests"

/-- Upstream failing with a non-URLError exception, as a socket
timeout while reading the response raises it. -/
def upTimeout : UpstreamCall → UpstreamResult :=
  fun _ => .exn "The read operation timed out"

/-- A well-formed proxied request: correct path, accurate
`Content-Length`, body fully available on the stream. -/
def mkProxyRequest (b : String) : PostRequest :=
  ⟨"/api/generate-scene", some (toString b.length), b⟩

/-- Inbound body `⦃"data": ⦃"model": "gpt"⦄⦄`. -/
def dataBody : String := "\x7b\"data\": \x7b\"model\": \"gpt\"\x7d\x7d"

/-- Inbound body `⦃"data": 1⦄`. -/
def smallBody : String := "\x7b\"data\": 1\x7d"

/-- The request carrying `dataBody`. -/
def reqMain : PostRequest := mkProxyRequest dataBody

/-- The request carrying `smallBody`. -/
def reqSmall : PostRequest := mkProxyRequest smallBody

/-! ## Stage lemmas about `do_POST` -/

/-- On the proxy path, once the body is read and parses, `do_POST` is
`handleParsed` on the parsed value. -/
theorem do_POST_stage1 (fs : FS) (up : UpstreamCall → UpstreamResult) (wf : Nat → Bool)
    (req : PostRequest) (b : String) (j : Json)
    (hpath : req.path = "/api/generate-scene")
    (hb : inboundBody req = .ok b)
    (hj : loads b = some j) :
    do_POST fs up wf req = handleParsed fs up wf j := by
  unfold do_POST
  rw [if_pos hpath, hb]
  dsimp only
  rw [hj]

/-- A present, non-empty credential passes the falsiness test. -/
theorem handleParsed_key (fs : FS) (up : UpstreamCall → UpstreamResult) (wf : Nat → Bool)
    (j : Json) (k : String) (hk : _load_api_key fs = some k) (h0 : k ≠ "") :
    handleParsed fs up wf j = handleWithKey up wf k j := by
  unfold handleParsed
  rw [hk]
  simp [h0]

/-- A successful `data` lookup only happens on a dict. -/
theorem getField_isObjLike (j : Json) (key : String) (d : Json)
    (h : getField j key = some d) : isObjLike j = true := by
  cases j <;> simp_all [getField, isObjLike]

/-- With the `data` field present, the upstream request is built from
the credential and the serialized field. -/
theorem handleWithKey_data (up : UpstreamCall → UpstreamResult) (wf : Nat → Bool)
    (k : String) (j d : Json) (hd : getField j "data" = some d) :
    handleWithKey up wf k j =
      performUpstream up wf ⟨openai_url, "Bearer " ++ k, "application/json", dumps d⟩ := by
  unfold handleWithKey
  rw [getField_isObjLike j "data" d hd, if_pos rfl, hd]

/-- Outcome of a 2xx upstream response with a decodable JSON body. -/
theorem performUpstream_success (up : UpstreamCall → UpstreamResult) (wf : Nat → Bool)
    (call : UpstreamCall) (s : String) (rj : Json)
    (hup : up call = .success s) (hs : loads s = some rj) :
    performUpstream up wf call = ⟨upstreamSuccessResponse rj :: extraOnDisconnect wf, [call]⟩ := by
  unfold performUpstream
  rw [hup]
  dsimp only
  rw [hs]

/-- Outcome of a `URLError` upstream failure. -/
theorem performUpstream_urlError (up : UpstreamCall → UpstreamResult) (wf : Nat → Bool)
    (call : UpstreamCall) (code : Option Nat) (errBody : Option String) (msg : String)
    (hup : up call = .urlError code errBody msg) :
    performUpstream up wf call = ⟨urlErrorResponse code errBody msg :: extraOnDisconnect wf, [call]⟩ := by
  unfold performUpstream
  rw [hup]

/-- Outcome of a non-URLError upstream failure (e.g. a timeout raised
outside the URLError hierarchy): the generic handler answers 500 with
the exception text. -/
theorem performUpstream_exn (up : UpstreamCall → UpstreamResult) (wf : Nat → Bool)
    (call : UpstreamCall) (msg : String)
    (hup : up call = .exn msg) :
    performUpstream up wf call = ⟨[genericServerError msg], [call]⟩ := by
  unfold performUpstream
  rw [hup]

/-- Whatever the upstream outcome, exactly the one call was made. -/
theorem performUpstream_calls (up : UpstreamCall → UpstreamResult) (wf : Nat → Bool)
    (call : UpstreamCall) : (performUpstream up wf call).calls = [call] := by
  unfold performUpstream
  cases hup : up call
  case success s => cases hs : loads s <;> simp [hs]
  case urlError => simp
  case exn => simp

/-- The loader loop agrees, line by line, with first-match-wins over
the per-line contribution of the reference description. -/
theorem scanEnvLines_eq (ls : List String) :
    scanEnvLines ls = (ls.filterMap credLineValue).head? := by
  induction ls with
  | nil => rfl
  | cons l ls ih =>
    rw [List.filterMap_cons]
    unfold scanEnvLines credLineValue
    by_cases h1 : (pyStrip l != "" && !strStartsWith (pyStrip l) "#") = true
    · rw [if_pos h1, if_pos h1]
      cases hsp : splitFirst '=' (pyStrip l) with
      | none => dsimp only; exact ih
      | some kv =>
        dsimp only
        by_cases h2 : pyStrip kv.1 = "OPENAI_API_KEY"
        · rw [if_pos h2, if_pos h2]
          rfl
        · rw [if_neg h2, if_neg h2]
          exact ih
    · rw [if_neg h1, if_neg h1]
      exact ih

/-! ## Claim C1 -/

/-- C1 (amended): caller-visible responses are independent of the
stored credential for every GET of a static path other than the
configuration store file itself.  Two filesystems agreeing everywhere
except on `.env` produce identical `do_GET` responses whenever the
resolved target of the processed request path is not the store file. -/
theorem c1_credential_noninterference (fs1 fs2 : FS)
    (h : ∀ q, q ≠ ".env" → fs1 q = fs2 q) (p : String)
    (hp : resolvePath ("." ++ processedPath p) ≠ ".env") :
    do_GET fs1 p = do_GET fs2 p := by
  unfold do_GET readFile
  dsimp only
  rw [h _ hp]

/-- C1 witness: the amended theorem at the concrete stores differing
only in the credential value and the path `/index.html`. -/
theorem c1_credential_noninterference_witness :
    do_GET envFsOne "/index.html" = do_GET envFsTwo "/index.html" :=
  c1_credential_noninterference envFsOne envFsTwo
    (fun q hq => by simp [envFsOne, envFsTwo, hq]) "/index.html" (by decide)

/-- C1 counterexample: the claim as stated is false.  `envFsOne` and
`envFsTwo` differ only in the stored credential value (both map every
path other than `.env` to `none`), yet `GET /.env` — a GET of a static
path, served because `do_GET` maps the `.env` extension to
`text/plain` — returns the store's content, credential included, so
the two runs produce different caller-visible responses. -/
theorem c1_env_disclosure_counterexample :
    do_GET envFsOne "/.env" ≠ do_GET envFsTwo "/.env" ∧
    (do_GET envFsOne "/.env").map Response.body = ["OPENAI_API_KEY=secret-one"] ∧
    (do_GET envFsTwo "/.env").map Response.body = ["OPENAI_API_KEY=secret-two"] :=
  ⟨by decide, rfl, rfl⟩

/-! ## Claim C2 -/

/-- C2: for a POST to `/api/generate-scene` whose body parses to JSON
with a `data` field, when the credential is present and non-empty and
the upstream call succeeds with a decodable JSON body, the caller gets
exactly one response: status 200, `Content-type: application/json`,
`Access-Control-Allow-Origin: *`, and the upstream JSON re-serialized
verbatim (`dumps rj` where `rj` is the parse of the upstream body — no
field added, removed, or transformed), and exactly the one upstream
call is made. -/
theorem c2_success_relay (fs : FS) (up : UpstreamCall → UpstreamResult) (req : PostRequest)
    (b s k : String) (j d rj : Json)
    (hpath : req.path = "/api/generate-scene")
    (hb : inboundBody req = .ok b)
    (hj : loads b = some j)
    (hd : getField j "data" = some d)
    (hk : _load_api_key fs = some k) (h0 : k ≠ "")
    (hup : up ⟨openai_url, "Bearer " ++ k, "application/json", dumps d⟩ = .success s)
    (hs : loads s = some rj) :
    do_POST fs up noDisconnect req =
      ⟨[⟨200, [("Content-type", "application/json"), ("Access-Control-Allow-Origin", "*")], dumps rj⟩],
       [⟨openai_url, "Bearer " ++ k, "application/json", dumps d⟩]⟩ := by
  rw [do_POST_stage1 fs up noDisconnect req b j hpath hb hj,
      handleParsed_key fs up noDisconnect j k hk h0,
      handleWithKey_data up noDisconnect k j d hd,
      performUpstream_success up noDisconnect _ s rj hup hs]
  rfl

/-- C2 witness: the theorem at a fully concrete run. -/
theorem c2_success_relay_witness :
    do_POST envFsMain upSuccess noDisconnect reqMain =
      ⟨[⟨200, [("Content-type", "application/json"), ("Access-Control-Allow-Origin", "*")],
          "\x7b\"id\": \"abc\"\x7d"⟩],
       [⟨openai_url, "Bearer sk-test", "application/json", "\x7b\"model\": \"gpt\"\x7d"⟩]⟩ :=
  c2_success_relay envFsMain upSuccess reqMain dataBody "\x7b\"id\": \"abc\"\x7d" "sk-test"
    (Json.objCons "data" (Json.objCons "model" (.str "gpt") .objNil) .objNil)
    (Json.objCons "model" (.str "gpt") .objNil)
    (Json.objCons "id" (.str "abc") .objNil)
    rfl rfl rfl rfl rfl (by decide) rfl rfl

/-! ## Claim C3 -/

/-- C3: on a well-formed JSON body, when the credential loader returns
`none` the caller gets exactly status 500 with the fixed body, and no
upstream call is made (`calls = []`, for every upstream behaviour). -/
theorem c3_credential_absent_500 (fs : FS) (up : UpstreamCall → UpstreamResult)
    (req : PostRequest) (b : String) (j : Json)
    (hpath : req.path = "/api/generate-scene")
    (hb : inboundBody req = .ok b)
    (hj : loads b = some j)
    (hk : _load_api_key fs = none) :
    do_POST fs up noDisconnect req =
      ⟨[⟨500, [("Content-type", "application/json")],
          "\x7b\"error\": \"API key not found in .env file\"\x7d"⟩], []⟩ := by
  rw [do_POST_stage1 fs up noDisconnect req b j hpath hb hj]
  unfold handleParsed
  rw [hk]
  rfl

/-- C3 witness: the theorem with no `.env` store present. -/
theorem c3_credential_absent_500_witness :
    do_POST fsNoEnv upNever noDisconnect reqSmall =
      ⟨[⟨500, [("Content-type", "application/json")],
          "\x7b\"error\": \"API key not found in .env file\"\x7d"⟩], []⟩ :=
  c3_credential_absent_500 fsNoEnv upNever reqSmall smallBody
    (Json.objCons "data" (.num 1) .objNil) rfl rfl rfl rfl

/-! ## Claim C4 -/

/-- C4 (amended): a body that fails to parse as JSON (including a
truncated body whose read prefix is not valid JSON) yields exactly
status 400 with body `⦃"error": "Invalid JSON in request"⦄`; a
non-numeric `Content-Length` header instead raises a `ValueError`
that the generic handler answers with status 500 and the exception
text.  Both faults are recovered locally (a response is still
written) and make no upstream call. -/
theorem c4_inbound_failure_handling (fs : FS) (up : UpstreamCall → UpstreamResult)
    (req : PostRequest) (hpath : req.path = "/api/generate-scene") :
    (∀ s, req.contentLength = some s → pyInt s = none →
      do_POST fs up noDisconnect req =
        ⟨[⟨500, [("Content-type", "application/json")],
            dumps (.objCons "error"
              (.str ("invalid literal for int() with base 10: " ++ pyRepr s)) .objNil)⟩], []⟩) ∧
    (∀ b, inboundBody req = .ok b → loads b = none →
      do_POST fs up noDisconnect req =
        ⟨[⟨400, [("Content-type", "application/json")],
            "\x7b\"error\": \"Invalid JSON in request\"\x7d"⟩], []⟩) := by
  constructor
  · intro s hcl hpy
    have hib : inboundBody req = .error ("invalid literal for int() with base 10: " ++ pyRepr s) := by
      unfold inboundBody contentLengthVal
      rw [hcl]
      dsimp only
      rw [hpy]
    unfold do_POST
    rw [if_pos hpath, hib]
    rfl
  · intro b hb hl
    unfold do_POST
    rw [if_pos hpath, hb]
    dsimp only
    rw [hl]
    rfl

/-- C4 witness: both conjuncts of the amended theorem at concrete
requests (`Content-Length: abc`, and the literal body `not-json`). -/
theorem c4_inbound_failure_handling_witness :
    do_POST fsNoEnv upNever noDisconnect ⟨"/api/generate-scene", some "abc", ""⟩ =
      ⟨[⟨500, [("Content-type", "application/json")],
          "\x7b\"error\": \"invalid literal for int() with base 10: 'abc'\"\x7d"⟩], []⟩ ∧
    do_POST fsNoEnv upNever noDisconnect (mkProxyRequest "not-json") =
      ⟨[⟨400, [("Content-type", "application/json")],
          "\x7b\"error\": \"Invalid JSON in request\"\x7d"⟩], []⟩ :=
  ⟨(c4_inbound_failure_handling fsNoEnv upNever ⟨"/api/generate-scene", some "abc", ""⟩ rfl).1
      "abc" rfl rfl,
   (c4_inbound_failure_handling fsNoEnv upNever (mkProxyRequest "not-json") rfl).2
      "not-json" rfl rfl⟩

/-- C4 counterexample: the claim as stated is false for a non-numeric
`Content-Length` header.  With `Content-Length: abc` the `int()` call
raises `ValueError`, which the line-150 `json.JSONDecodeError` handler
does not catch; the generic `except Exception` answers 500 with the
exception text — not the claimed 400 with
`⦃"error": "Invalid JSON in request"⦄`. -/
theorem c4_content_length_counterexample :
    do_POST fsNoEnv upNever noDisconnect ⟨"/api/generate-scene", some "abc", ""⟩ =
      ⟨[⟨500, [("Content-type", "application/json")],
          "\x7b\"error\": \"invalid literal for int() with base 10: 'abc'\"\x7d"⟩], []⟩ ∧
    (do_POST fsNoEnv upNever noDisconnect ⟨"/api/generate-scene", some "abc", ""⟩).attempts.map
        Response.status ≠ [400] :=
  ⟨rfl, by decide⟩

/-! ## Claim C5 -/

/-- C5 (amended): for every failure of the upstream call — whether a
`URLError`/`HTTPError` (network failure, non-2xx status) or any other
exception (e.g. a timeout or reset raised while reading the response,
which `except Exception` answers) — the caller gets one response whose
status is the upstream-reported code when available and at least 400,
and 500 otherwise, and whose JSON body holds an `error` field with the
failure description (together with the fixed `type` field in the
URLError case), and — whenever a NON-EMPTY upstream error body was
read — a `details` field holding that body parsed as JSON when it
decodes and as raw text otherwise (`detailsTailFor`; an empty readable
body yields no `details`, and a non-URLError failure has no readable
body and no reported code). -/
theorem c5_upstream_error_relay (fs : FS) (up : UpstreamCall → UpstreamResult)
    (req : PostRequest) (b k : String) (j d : Json)
    (hpath : req.path = "/api/generate-scene")
    (hb : inboundBody req = .ok b)
    (hj : loads b = some j)
    (hd : getField j "data" = some d)
    (hk : _load_api_key fs = some k) (h0 : k ≠ "") :
    (∀ (code : Option Nat) (errBody : Option String) (msg : String),
      up ⟨openai_url, "Bearer " ++ k, "application/json", dumps d⟩ =
          .urlError code errBody msg →
      do_POST fs up noDisconnect req =
        ⟨[⟨if 400 ≤ code.getD 500 then code.getD 500 else 500,
            [("Content-type", "application/json"), ("Access-Control-Allow-Origin", "*")],
            dumps (.objCons "error" (.str msg) (.objCons "type" (.str "openai_api_error")
              (detailsTailFor errBody)))⟩],
         [⟨openai_url, "Bearer " ++ k, "application/json", dumps d⟩]⟩) ∧
    (∀ msg : String,
      up ⟨openai_url, "Bearer " ++ k, "application/json", dumps d⟩ = .exn msg →
      do_POST fs up noDisconnect req =
        ⟨[⟨500, [("Content-type", "application/json")],
            dumps (.objCons "error" (.str msg) .objNil)⟩],
         [⟨openai_url, "Bearer " ++ k, "application/json", dumps d⟩]⟩) := by
  constructor
  · intro code errBody msg hup
    rw [do_POST_stage1 fs up noDisconnect req b j hpath hb hj,
        handleParsed_key fs up noDisconnect j k hk h0,
        handleWithKey_data up noDisconnect k j d hd,
        performUpstream_urlError up noDisconnect _ code errBody msg hup]
    rfl
  · intro msg hup
    rw [do_POST_stage1 fs up noDisconnect req b j hpath hb hj,
        handleParsed_key fs up noDisconnect j k hk h0,
        handleWithKey_data up noDisconnect k j d hd,
        performUpstream_exn up noDisconnect _ msg hup]
    rfl

/-- C5 witness: both conjuncts at concrete runs — a 429 failure with a
JSON error body, relayed with status 429 and a parsed `details` field;
and a non-URLError timeout, answered 500 with the exception text. -/
theorem c5_upstream_error_relay_witness :
    do_POST envFsMain up429 noDisconnect reqSmall =
      ⟨[⟨429, [("Content-type", "application/json"), ("Access-Control-Allow-Origin", "*")],
          "\x7b\"error\": \"HTTP Error 429: Too Many Requests\", \"type\": \"openai_api_error\", \"details\": \x7b\"message\": \"rate limit\"\x7d\x7d"⟩],
       [⟨openai_url, "Bearer sk-test", "application/json", "1"⟩]⟩ ∧
    do_POST envFsMain upTimeout noDisconnect reqSmall =
      ⟨[⟨500, [("Content-type", "application/json")],
          "\x7b\"error\": \"The read operation timed out\"\x7d"⟩],
       [⟨openai_url, "Bearer sk-test", "application/json", "1"⟩]⟩ :=
  ⟨(c5_upstream_error_relay envFsMain up429 reqSmall smallBody "sk-test"
      (Json.objCons "data" (.num 1) .objNil) (.num 1)
      rfl rfl rfl rfl rfl (by decide)).1
    (some 429) (some "\x7b\"message\": \"rate limit\"\x7d") "HTTP Error 429: Too Many Requests" rfl,
   (c5_upstream_error_relay envFsMain upTimeout reqSmall smallBody "sk-test"
      (Json.objCons "data" (.num 1) .objNil) (.num 1)
      rfl rfl rfl rfl rfl (by decide)).2
    "The read operation timed out" rfl⟩

/-- C5 counterexample: the claim as stated is false when the readable
upstream error body is the empty string.  `up404Empty` reports code
404 with a readable (empty) body, so the claim requires a `details`
field holding the raw text; but `if error_body:` is a falsiness test,
so the relayed body carries no `details` member at all. -/
theorem c5_empty_details_counterexample :
    do_POST envFsMain up404Empty noDisconnect reqSmall =
      ⟨[⟨404, [("Content-type", "application/json"), ("Access-Control-Allow-Origin", "*")],
          "\x7b\"error\": \"HTTP Error 404: Not Found\", \"type\": \"openai_api_error\"\x7d"⟩],
       [⟨openai_url, "Bearer sk-test", "application/json", "1"⟩]⟩ ∧
    (loads "\x7b\"error\": \"HTTP Error 404: Not Found\", \"type\": \"openai_api_error\"\x7d").bind
      (fun j => getField j "details") = none :=
  ⟨rfl, rfl⟩

/-! ## Claim C6 -/

/-- C6: `_load_api_key` coincides with the reference loader written
from the claim's description — skip lines empty after trimming or
starting with `#`, split the remaining lines containing `=` on the
first `=`, strip whitespace then double then single quotes from the
value, return the value of the first line whose trimmed key is exactly
`OPENAI_API_KEY`, and return `none` when no line matches or the store
is absent (the absent-store warning is a side effect only). -/
theorem c6_loader_matches_description (fs : FS) :
    _load_api_key fs = load_credential_spec fs := by
  unfold _load_api_key load_credential_spec
  cases h : readFile fs ".env" with
  | none => rfl
  | some content =>
    dsimp only [Option.bind]
    exact scanEnvLines_eq (envLines content)

/-! ## Claim C7 -/

/-- C7: the credential is read freshly from the store on every proxied
call.  For any two stores (in particular the same store twice, or the
store before and after an edit) and any upstream behaviours, the same
well-formed request produces exactly one upstream call per run, whose
`Authorization` header is `Bearer` followed by the credential loaded
from that run's store, with identical URL, content type, and
serialized body across runs.  Instantiating `fs1 = fs2` gives the
no-caching/idempotence reading; distinct stores give the
edit-takes-effect-immediately reading. -/
theorem c7_fresh_credential_per_request (fs1 fs2 : FS)
    (up1 up2 : UpstreamCall → UpstreamResult) (req : PostRequest)
    (b k1 k2 : String) (j d : Json)
    (hpath : req.path = "/api/generate-scene")
    (hb : inboundBody req = .ok b)
    (hj : loads b = some j)
    (hd : getField j "data" = some d)
    (hk1 : _load_api_key fs1 = some k1) (h1 : k1 ≠ "")
    (hk2 : _load_api_key fs2 = some k2) (h2 : k2 ≠ "") :
    (do_POST fs1 up1 noDisconnect req).calls =
      [⟨openai_url, "Bearer " ++ k1, "application/json", dumps d⟩] ∧
    (do_POST fs2 up2 noDisconnect req).calls =
      [⟨openai_url, "Bearer " ++ k2, "application/json", dumps d⟩] := by
  constructor
  · rw [do_POST_stage1 fs1 up1 noDisconnect req b j hpath hb hj,
        handleParsed_key fs1 up1 noDisconnect j k1 hk1 h1,
        handleWithKey_data up1 noDisconnect k1 j d hd]
    exact performUpstream_calls up1 noDisconnect _
  · rw [do_POST_stage1 fs2 up2 noDisconnect req b j hpath hb hj,
        handleParsed_key fs2 up2 noDisconnect j k2 hk2 h2,
        handleWithKey_data up2 noDisconnect k2 j d hd]
    exact performUpstream_calls up2 noDisconnect _

/-- C7 witness: the same request against the store holding `sk-test`
and against the edited store holding `sk-other`: the very next call's
`Authorization` header follows the store. -/
theorem c7_fresh_credential_per_request_witness :
    (do_POST envFsMain upSuccess noDisconnect reqSmall).calls =
      [⟨openai_url, "Bearer sk-test", "application/json", "1"⟩] ∧
    (do_POST envFsAlt upSuccess noDisconnect reqSmall).calls =
      [⟨openai_url, "Bearer sk-other", "application/json", "1"⟩] :=
  c7_fresh_credential_per_request envFsMain envFsAlt upSuccess upSuccess reqSmall
    smallBody "sk-test" "sk-other" (Json.objCons "data" (.num 1) .objNil) (.num 1)
    rfl rfl rfl rfl rfl (by decide) rfl (by decide)

/-! ## Claim C8 -/

/-- C8 (code bug): a client disconnect during the success-path response
write (server.py line 114) is NOT swallowed silently.  The write sits
in no connection-error handler; the `ConnectionResetError` falls
through to `except Exception` (line 159), which surfaces it as a
server error by attempting a 500 response carrying the disconnect's
exception text.  The attempts list therefore contains a 500 emitted
for the disconnect, contradicting the claim (and spec §4.2 item 7 /
§7 TransportError), whose intent the guarded sites at lines 52-54,
61-62, 150-157 and 159-166 display. -/
theorem c8_disconnect_triggers_500 :
    (do_POST envFsMain upSuccess disconnectFirstWrite reqSmall).attempts =
      [⟨200, [("Content-type", "application/json"), ("Access-Control-Allow-Origin", "*")],
         "\x7b\"id\": \"abc\"\x7d"⟩,
       ⟨500, [("Content-type", "application/json")],
         "\x7b\"error\": \"[Errno 104] Connection reset by peer\"\x7d"⟩] := rfl

/-! ## Claim C9 -/

/-- C9: every OPTIONS request, whatever its path (and independently of
any payload, which `do_OPTIONS` never reads), is answered with status
200, an empty body, and exactly the three CORS headers. -/
theorem c9_preflight_response (p : String) :
    do_OPTIONS p =
      ⟨200, [("Access-Control-Allow-Origin", "*"),
             ("Access-Control-Allow-Methods", "GET, POST, OPTIONS"),
             ("Access-Control-Allow-Headers", "Content-Type, Authorization")], ""⟩ := rfl

/-! ## Claim C10 -/

/-- C10: a credential line with an empty value makes `_load_api_key`
return `some ""`, and `if not api_key:` tests falsiness, so the empty
string takes the same branch as an absent key: exactly status 500 with
the missing-key body, and no upstream call. -/
theorem c10_empty_credential_500 (fs : FS) (up : UpstreamCall → UpstreamResult)
    (req : PostRequest) (b : String) (j : Json)
    (hpath : req.path = "/api/generate-scene")
    (hb : inboundBody req = .ok b)
    (hj : loads b = some j)
    (hk : _load_api_key fs = some "") :
    do_POST fs up noDisconnect req =
      ⟨[⟨500, [("Content-type", "application/json")],
          "\x7b\"error\": \"API key not found in .env file\"\x7d"⟩], []⟩ := by
  rw [do_POST_stage1 fs up noDisconnect req b j hpath hb hj]
  unfold handleParsed
  rw [hk]
  rfl

/-- C10 witness: the store line `OPENAI_API_KEY=""` loads as the empty
string, and the request terminates 500 with no upstream call. -/
theorem c10_empty_credential_500_witness :
    _load_api_key envFsEmptyVal = some "" ∧
    do_POST envFsEmptyVal upNever noDisconnect reqSmall =
      ⟨[⟨500, [("Content-type", "application/json")],
          "\x7b\"error\": \"API key not found in .env file\"\x7d"⟩], []⟩ :=
  ⟨rfl,
   c10_empty_credential_500 envFsEmptyVal upNever reqSmall smallBody
     (Json.objCons "data" (.num 1) .objNil) rfl rfl rfl rfl⟩
